import Mathlib

/-!
# Lights HAL: shallow embedding of `light/Lights.cpp`

The service owns three logical light states (attention, battery, notification)
that share one red/green LED pair, plus an LCD backlight.  Every stream
insertion `stream << v << std::endl` of the source is modelled as one `Write`
event; a member function that writes returns the events it issues, in order.
-/

namespace Light

/-! ## Data model -/

/-- Flash modes of a light state: `FlashMode::NONE`, `FlashMode::TIMED` and the
protocol's third mode `FlashMode::HARDWARE`. -/
inductive FlashMode where
  | NONE
  | TIMED
  | HARDWARE
deriving DecidableEq

/-- Modelled from the spec: the `HwLightState` value type, whose declaration is
in the platform's interface headers and not in the repository.  `color` is the
32-bit packed colour, held as its unsigned bit pattern; the two durations are
signed integers.  Equality (`operator==`) is by value. -/
structure HwLightState where
  color : Nat
  flashMode : FlashMode
  flashOnMs : Int
  flashOffMs : Int
deriving DecidableEq

/-- The value-initialised state `HwLightState{}`: colour 0, no flashing, zero
durations. -/
def HwLightState.empty : HwLightState := ⟨0, FlashMode.NONE, 0, 0⟩

/-- Modelled from the spec: the `LightType` enumeration, declared in the
platform's interface headers and not in the repository.  The platform declares
it with a signed 8-bit underlying type, so a value of the enumeration is a
number in -128..127, held in `val`; `(int32_t)light` is `light.val`.  The five
enumerators used by the constructor carry the numeric values of the platform
interface. -/
structure LightType where
  val : Int
deriving DecidableEq

/-- Conversion of an integer to the signed 8-bit underlying type of `LightType`:
the value is reduced modulo 256 into -128..127. -/
def toInt8 (n : Int) : Int := (n + 128) % 256 - 128

/-- The conversion `static_cast<LightType>(id)` of a 32-bit `id`. -/
def LightType.ofId (id : Int) : LightType := ⟨toInt8 id⟩

def LightType.BACKLIGHT : LightType := ⟨0⟩
def LightType.BUTTONS : LightType := ⟨2⟩
def LightType.BATTERY : LightType := ⟨3⟩
def LightType.NOTIFICATIONS : LightType := ⟨4⟩
def LightType.ATTENTION : LightType := ⟨5⟩

/-- Modelled from the spec: an entry of the enumeration returned by `getLights`
(`HwLight`: id, type, ordinal). -/
structure HwLight where
  id : Int
  type : LightType
  ordinal : Int
deriving DecidableEq

/-- The five output streams of `Lights.h`. -/
inductive Sink where
  | mLcdBacklight
  | mRedBreath
  | mRedLed
  | mGreenBreath
  | mGreenLed
deriving DecidableEq

/-- One `stream << value << std::endl`. -/
structure Write where
  sink : Sink
  value : Nat
deriving DecidableEq

/-- Result codes of the two interface methods. -/
inductive Status where
  | ok
  | EX_UNSUPPORTED_OPERATION
deriving DecidableEq

/-- The mutable members of `class Lights` that the methods read or assign:
`mLcdBacklight.second` and the three stored states.  (`mLights` is filled once
by the constructor and never changes; see `mLights`.) -/
structure Lights where
  mLcdBacklightMax : Nat
  mAttentionState : HwLightState
  mBatteryState : HwLightState
  mNotificationState : HwLightState
deriving DecidableEq

/-- Current content of the five control files: the last value written to each. -/
structure Device where
  lcdBacklight : Nat
  redBreath : Nat
  redLed : Nat
  greenBreath : Nat
  greenLed : Nat
deriving DecidableEq

/-- A write replaces the content of its sink. -/
def Device.write (d : Device) (w : Write) : Device :=
  match w.sink with
  | Sink.mLcdBacklight => { d with lcdBacklight := w.value }
  | Sink.mRedBreath => { d with redBreath := w.value }
  | Sink.mRedLed => { d with redLed := w.value }
  | Sink.mGreenBreath => { d with greenBreath := w.value }
  | Sink.mGreenLed => { d with greenLed := w.value }

/-- Apply a sequence of writes in order. -/
def Device.writeAll (d : Device) (ws : List Write) : Device :=
  ws.foldl Device.write d

/-! ## Anonymous-namespace helpers -/

/-- Reduction of a value to `uint32_t`. -/
def u32 (n : Nat) : Nat := n % 4294967296

def DEFAULT_MAX_BRIGHTNESS : Nat := 255

/-- `rgbToBrightness` (Lights.cpp 20-24), in `uint32_t` arithmetic. -/
def rgbToBrightness (state : HwLightState) : Nat :=
  let color := u32 (state.color &&& 0x00ffffff)
  (u32 (u32 (u32 (77 * ((color >>> 16) &&& 0xff)) + u32 (150 * ((color >>> 8) &&& 0xff)))
    + u32 (29 * (color &&& 0xff)))) >>> 8

/-- `isLit` (Lights.cpp 26-28). -/
def isLit (state : HwLightState) : Bool :=
  (state.color &&& 0x00ffffff) != 0

/-! ## `setSpeakerLightLocked` (Lights.cpp 138-223) -/

/-- The locals `onMs`, `offMs` after the `switch` on `state.flashMode`
(Lights.cpp 152-168). -/
def speakerOnOff (state : HwLightState) : Int × Int :=
  match state.flashMode with
  | FlashMode.TIMED => (state.flashOnMs, state.flashOffMs)
  | _ => (0, 0)

/-- The local `breath` (Lights.cpp 173-176). -/
def speakerBreath (state : HwLightState) : Nat :=
  if (speakerOnOff state).1 > 0 ∧ (speakerOnOff state).2 > 0 then 1 else 0

/-- The locals `(red, green)` after the colour-forcing block
(Lights.cpp 170-196). -/
def speakerColor (self : Lights) (state : HwLightState) : Nat × Nat :=
  let colorARGB := u32 state.color
  let red := (colorARGB >>> 16) &&& 0xff
  let green := (colorARGB >>> 8) &&& 0xff
  let breath := speakerBreath state
  if colorARGB > 0xFF000000 ∧ state = self.mBatteryState then
    if red ≥ green then (0xFF, 0)
    else if breath = 0 ∧ red ≥ 0x50 ∧ green > red then (0x08, 0xFF)
    else (0, 0xFF)
  else if colorARGB > 0xFF000000 ∧ state = self.mNotificationState then (0, 0xFF)
  else (0, 0)

/-- `Lights::setSpeakerLightLocked`: the writes it issues, in order. -/
def setSpeakerLightLocked (self : Lights) (state : HwLightState) : List Write :=
  let breath := speakerBreath state
  let red := (speakerColor self state).1
  let green := (speakerColor self state).2
  [⟨Sink.mRedBreath, 0⟩, ⟨Sink.mGreenBreath, 0⟩] ++
    (if breath ≠ 0 then
      (if green ≠ 0 then [⟨Sink.mGreenBreath, breath⟩] else []) ++
      (if red ≠ 0 then [⟨Sink.mRedBreath, breath⟩] else [])
    else
      [⟨Sink.mRedLed, red⟩, ⟨Sink.mGreenLed, green⟩])

/-! ## `setSpeakerBatteryLightLocked` (Lights.cpp 125-136) -/

/-- The argument that `setSpeakerBatteryLightLocked` passes to
`setSpeakerLightLocked`: each branch of its `if` chain makes that one call. -/
def selectedState (self : Lights) : HwLightState :=
  if isLit self.mNotificationState then self.mNotificationState
  else if isLit self.mAttentionState then self.mAttentionState
  else if isLit self.mBatteryState then self.mBatteryState
  else HwLightState.empty

/-- `Lights::setSpeakerBatteryLightLocked`. -/
def setSpeakerBatteryLightLocked (self : Lights) : List Write :=
  setSpeakerLightLocked self (selectedState self)

/-! ## The per-role setters (Lights.cpp 81-123) -/

def setAttentionLight (self : Lights) (state : HwLightState) : Lights × List Write :=
  let self1 := { self with mAttentionState := state }
  (self1, setSpeakerBatteryLightLocked self1)

def setLcdBacklight (self : Lights) (state : HwLightState) : Lights × List Write :=
  let brightness := rgbToBrightness state
  let brightness :=
    if u32 self.mLcdBacklightMax ≠ DEFAULT_MAX_BRIGHTNESS then
      u32 (brightness * u32 self.mLcdBacklightMax) / DEFAULT_MAX_BRIGHTNESS
    else brightness
  (self, [⟨Sink.mLcdBacklight, brightness⟩])

def setButtonsBacklight (self : Lights) (_state : HwLightState) : Lights × List Write :=
  (self, [])

def setBatteryLight (self : Lights) (state : HwLightState) : Lights × List Write :=
  let self1 := { self with mBatteryState := state }
  (self1, setSpeakerBatteryLightLocked self1)

def setNotificationLight (self : Lights) (state : HwLightState) : Lights × List Write :=
  let self1 := { self with mNotificationState := state }
  (self1, setSpeakerBatteryLightLocked self1)

/-! ## The role table and the interface methods (Lights.cpp 37-79) -/

/-- A bound member function stored in `mLights`. -/
abbrev Handler := Lights → HwLightState → Lights × List Write

/-- `unordered_map::emplace`: inserts unless the key is already present. -/
def emplace (m : List (LightType × Handler)) (e : LightType × Handler) :
    List (LightType × Handler) :=
  if m.any (fun x => x.1 = e.1) then m else m ++ [e]

/-- `unordered_map::find`; `none` is `end()`. -/
def find (m : List (LightType × Handler)) (k : LightType) : Option (LightType × Handler) :=
  m.find? (fun x => x.1 = k)

/-- The map `mLights` as the constructor fills it (Lights.cpp 50-54), listed in
insertion order.  The container's own iteration order is unspecified. -/
def mLights : List (LightType × Handler) :=
  emplace (emplace (emplace (emplace (emplace []
    (LightType.ATTENTION, setAttentionLight))
    (LightType.BACKLIGHT, setLcdBacklight))
    (LightType.BATTERY, setBatteryLight))
    (LightType.BUTTONS, setButtonsBacklight))
    (LightType.NOTIFICATIONS, setNotificationLight)

/-- `Lights::setLightState` (Lights.cpp 58-68): status, object afterwards and
the writes issued. -/
def setLightState (self : Lights) (id : Int) (state : HwLightState) :
    Status × Lights × List Write :=
  match find mLights (LightType.ofId id) with
  | none => (Status.EX_UNSUPPORTED_OPERATION, self, [])
  | some it => (Status.ok, (it.2 self state).1, (it.2 self state).2)

/-- The initialiser of the macro `AutoHwLight` (Lights.cpp 70). -/
def AutoHwLight (light : LightType) : HwLight :=
  { id := light.val, type := light, ordinal := 0 }

/-- `Lights::getLights` (Lights.cpp 72-79), with the order in which the loop
visits `mLights` as an explicit argument: one `push_back` per visited entry. -/
def getLightsIn (iteration : List (LightType × Handler)) (self : Lights)
    (_aidl_return : List HwLight) : Status × Lights × List HwLight :=
  (Status.ok, self, iteration.foldl (fun ret light => ret ++ [AutoHwLight light.1]) _aidl_return)

/-- `Lights::getLights` visiting `mLights` in insertion order. -/
def getLights (self : Lights) (_aidl_return : List HwLight) : Status × Lights × List HwLight :=
  getLightsIn mLights self _aidl_return

/-! ## Process start-up (`service.cpp` 32-90) -/

/-- Outcome of constructing a file stream on a path: the stream is open, or the
open failed and left `errno`. -/
inductive OpenResult where
  | opened
  | failed (errno : Int)
deriving DecidableEq

/-- What `main` finds when it opens its six paths, in the order it opens them.
`lcdMaxExtracted` is the value that `lcdMaxBacklight >> lcdMaxBrightness`
stores into the variable, `none` when the extraction stores nothing. -/
structure Startup where
  lcdBacklight : OpenResult
  lcdMaxBacklight : OpenResult
  lcdMaxExtracted : Option Nat
  redBreath : OpenResult
  redLed : OpenResult
  greenBreath : OpenResult
  greenLed : OpenResult
deriving DecidableEq

/-- The constructor `Lights::Lights` (Lights.cpp 37-55): it keeps the pair's
second component; the three stored states are value-initialised. -/
def Lights.construct (lcdMaxBrightness : Nat) : Lights :=
  { mLcdBacklightMax := lcdMaxBrightness,
    mAttentionState := HwLightState.empty,
    mBatteryState := HwLightState.empty,
    mNotificationState := HwLightState.empty }

/-- The function `main` (service.cpp 32-82) up to the construction of the
`Lights` object: `Except.error c` when it returns `c` before constructing it,
`Except.ok lights` when it constructs `lights` and goes on to register it. -/
def main (env : Startup) : Except Int Lights :=
  let lcdMaxBrightness : Nat := 255
  match env.lcdBacklight with
  | OpenResult.failed errno => Except.error (-errno)
  | OpenResult.opened =>
    match env.lcdMaxBacklight with
    | OpenResult.failed errno => Except.error (-errno)
    | OpenResult.opened =>
      let lcdMaxBrightness :=
        match env.lcdMaxExtracted with
        | some v => v
        | none => lcdMaxBrightness
      match env.redBreath with
      | OpenResult.failed errno => Except.error (-errno)
      | OpenResult.opened =>
        match env.redLed with
        | OpenResult.failed errno => Except.error (-errno)
        | OpenResult.opened =>
          match env.greenBreath with
          | OpenResult.failed errno => Except.error (-errno)
          | OpenResult.opened =>
            match env.greenLed with
            | OpenResult.failed errno => Except.error (-errno)
            | OpenResult.opened => Except.ok (Lights.construct lcdMaxBrightness)

/-! ## Specification-side definitions -/

/-- The selection as the specification words it: the highest-priority state
whose low 24 colour bits are nonzero, in the order notification, attention,
battery; the default/off state when there is none. -/
def priorityPick (notification attention battery : HwLightState) : HwLightState :=
  if notification.color % 16777216 ≠ 0 then notification
  else if attention.color % 16777216 ≠ 0 then attention
  else if battery.color % 16777216 ≠ 0 then battery
  else { color := 0, flashMode := FlashMode.NONE, flashOnMs := 0, flashOffMs := 0 }

/-! ## Auxiliary lemmas -/

theorem land_low24 (c : Nat) : c &&& 0x00ffffff = c % 16777216 :=
  Nat.and_pow_two_sub_one_eq_mod c 24

theorem land_low8 (c : Nat) : c &&& 0xff = c % 256 :=
  Nat.and_pow_two_sub_one_eq_mod c 8

theorem isLit_iff (s : HwLightState) : isLit s = true ↔ s.color % 16777216 ≠ 0 := by
  simp [isLit, land_low24]

theorem isLit_false_iff (s : HwLightState) : isLit s = false ↔ s.color % 16777216 = 0 := by
  simp [isLit, land_low24]

theorem selectedState_eq_priorityPick (self : Lights) :
    selectedState self =
      priorityPick self.mNotificationState self.mAttentionState self.mBatteryState := by
  simp only [selectedState, priorityPick, isLit_iff, HwLightState.empty]

theorem speakerColor_eq (self : Lights) (state : HwLightState) :
    speakerColor self state =
      if u32 state.color > 0xFF000000 ∧ state = self.mBatteryState then
        if u32 state.color / 65536 % 256 ≥ u32 state.color / 256 % 256 then (0xFF, 0)
        else if speakerBreath state = 0 ∧ u32 state.color / 65536 % 256 ≥ 0x50 then (0x08, 0xFF)
        else (0, 0xFF)
      else if u32 state.color > 0xFF000000 ∧ state = self.mNotificationState then (0, 0xFF)
      else (0, 0) := by
  simp only [speakerColor, Nat.shiftRight_eq_div_pow, land_low8]
  split
  · split
    · rfl
    · rename_i h
      have : u32 state.color / 256 % 256 > u32 state.color / 65536 % 256 := by
        simp only [Nat.reducePow] at h ⊢; omega
      simp [this]
  · rfl

theorem speakerBreath_eq (state : HwLightState) :
    speakerBreath state =
      if state.flashMode = FlashMode.TIMED ∧ state.flashOnMs > 0 ∧ state.flashOffMs > 0
      then 1 else 0 := by
  unfold speakerBreath speakerOnOff
  cases h : state.flashMode <;> simp

/-- C1. Resolution by fixed priority: the state that a shared-role update hands
to the physical-write step is the notification state if its low 24 colour bits
are nonzero, otherwise the attention state if its low 24 bits are nonzero,
otherwise the battery state if its low 24 bits are nonzero, otherwise the
default/off state; the same selection is used whichever of the three roles was
just updated. -/
theorem resolution_by_fixed_priority (self : Lights) (state : HwLightState) :
    selectedState self =
      priorityPick self.mNotificationState self.mAttentionState self.mBatteryState ∧
    (setLightState self LightType.NOTIFICATIONS.val state).2.2 =
      setSpeakerLightLocked { self with mNotificationState := state }
        (priorityPick state self.mAttentionState self.mBatteryState) ∧
    (setLightState self LightType.ATTENTION.val state).2.2 =
      setSpeakerLightLocked { self with mAttentionState := state }
        (priorityPick self.mNotificationState state self.mBatteryState) ∧
    (setLightState self LightType.BATTERY.val state).2.2 =
      setSpeakerLightLocked { self with mBatteryState := state }
        (priorityPick self.mNotificationState self.mAttentionState state) := by
  refine ⟨selectedState_eq_priorityPick self, ?_, ?_, ?_⟩
  · show setSpeakerBatteryLightLocked _ = _
    rw [setSpeakerBatteryLightLocked, selectedState_eq_priorityPick]
  · show setSpeakerBatteryLightLocked _ = _
    rw [setSpeakerBatteryLightLocked, selectedState_eq_priorityPick]
  · show setSpeakerBatteryLightLocked _ = _
    rw [setSpeakerBatteryLightLocked, selectedState_eq_priorityPick]

theorem gt_of_lit_top (s : HwLightState) (hlit : isLit s = true)
    (htop : s.color / 16777216 % 256 = 0xFF) : u32 s.color > 0xFF000000 := by
  rw [isLit_iff] at hlit
  unfold u32
  omega

theorem selectedState_notification (self : Lights) (h : isLit self.mNotificationState = true) :
    selectedState self = self.mNotificationState := by
  simp [selectedState, h]

theorem selectedState_attention (self : Lights) (hn : isLit self.mNotificationState = false)
    (ha : isLit self.mAttentionState = true) :
    selectedState self = self.mAttentionState := by
  simp [selectedState, hn, ha]

theorem selectedState_battery (self : Lights) (hn : isLit self.mNotificationState = false)
    (ha : isLit self.mAttentionState = false) (hb : isLit self.mBatteryState = true) :
    selectedState self = self.mBatteryState := by
  simp [selectedState, hn, ha, hb]

theorem selectedState_off (self : Lights) (hn : isLit self.mNotificationState = false)
    (ha : isLit self.mAttentionState = false) (hb : isLit self.mBatteryState = false) :
    selectedState self = HwLightState.empty := by
  simp [selectedState, hn, ha, hb]

/-- C2, counterexample: with notification and battery both holding the lit state
`0xFFFF0000` (top byte `0xFF`), the notification state wins the resolution but
the forced colour is red-only `(0xFF, 0)`, not green-only. -/
theorem notification_green_fails_when_battery_equal :
    isLit (⟨0xFFFF0000, FlashMode.NONE, 0, 0⟩ : HwLightState) = true ∧
    (0xFFFF0000 : Nat) / 16777216 % 256 = 0xFF ∧
    speakerColor
      { mLcdBacklightMax := 255,
        mAttentionState := HwLightState.empty,
        mBatteryState := ⟨0xFFFF0000, FlashMode.NONE, 0, 0⟩,
        mNotificationState := ⟨0xFFFF0000, FlashMode.NONE, 0, 0⟩ }
      (selectedState
        { mLcdBacklightMax := 255,
          mAttentionState := HwLightState.empty,
          mBatteryState := ⟨0xFFFF0000, FlashMode.NONE, 0, 0⟩,
          mNotificationState := ⟨0xFFFF0000, FlashMode.NONE, 0, 0⟩ }) = (0xFF, 0) ∧
    ((0xFF, 0) : Nat × Nat) ≠ (0, 0xFF) := by
  decide

/-- C2, amended: when the notification state is lit, its colour's top byte is
`0xFF` and the battery state differs in value from the notification state, the
forced colour is green-only `(red, green) = (0, 0xFF)`, whatever the attention
state is. -/
theorem notification_forces_green (self : Lights)
    (hlit : isLit self.mNotificationState = true)
    (htop : self.mNotificationState.color / 16777216 % 256 = 0xFF)
    (hne : self.mBatteryState ≠ self.mNotificationState) :
    speakerColor self (selectedState self) = (0, 0xFF) := by
  rw [selectedState_notification self hlit, speakerColor_eq]
  have hgt := gt_of_lit_top _ hlit htop
  rw [if_neg (fun h => hne h.2.symm), if_pos ⟨hgt, rfl⟩]

/-- Instance: a blue, breathing notification over an opaque red battery state. -/
theorem notification_forces_green_witness :
    speakerColor
      ⟨255, HwLightState.empty, ⟨0xFFFF0000, FlashMode.NONE, 0, 0⟩,
        ⟨0xFF0000FF, FlashMode.TIMED, 500, 500⟩⟩
      (selectedState
        ⟨255, HwLightState.empty, ⟨0xFFFF0000, FlashMode.NONE, 0, 0⟩,
          ⟨0xFF0000FF, FlashMode.TIMED, 500, 500⟩⟩) = (0, 0xFF) :=
  notification_forces_green _ (by decide) (by decide) (by decide)

/-- C3. Battery colour quantisation: when notification and attention are not lit
and the battery state is lit with colour top byte `0xFF`, the forced
`(red, green)` is `(0xFF, 0)` if `R >= G`, `(0x08, 0xFF)` if `R < G`,
`R >= 0x50` and the state does not breathe, and `(0, 0xFF)` otherwise, where
`R`, `G` are bits 16-23 and 8-15 of the colour and the state breathes iff it is
`TIMED` with both durations positive. -/
theorem battery_colour_quantisation (self : Lights)
    (hn : isLit self.mNotificationState = false)
    (ha : isLit self.mAttentionState = false)
    (hb : isLit self.mBatteryState = true)
    (htop : self.mBatteryState.color / 16777216 % 256 = 0xFF) :
    speakerColor self (selectedState self) =
      if self.mBatteryState.color / 65536 % 256 ≥ self.mBatteryState.color / 256 % 256 then
        (0xFF, 0)
      else if self.mBatteryState.color / 65536 % 256 ≥ 0x50 ∧
          ¬ (self.mBatteryState.flashMode = FlashMode.TIMED ∧
             self.mBatteryState.flashOnMs > 0 ∧ self.mBatteryState.flashOffMs > 0) then
        (0x08, 0xFF)
      else (0, 0xFF) := by
  rw [selectedState_battery self hn ha hb, speakerColor_eq, speakerBreath_eq]
  have hgt := gt_of_lit_top _ hb htop
  rw [if_pos ⟨hgt, rfl⟩]
  have h1 : u32 self.mBatteryState.color / 65536 % 256 = self.mBatteryState.color / 65536 % 256 := by
    unfold u32; omega
  have h2 : u32 self.mBatteryState.color / 256 % 256 = self.mBatteryState.color / 256 % 256 := by
    unfold u32; omega
  rw [h1, h2]
  by_cases hbr : self.mBatteryState.flashMode = FlashMode.TIMED ∧
      self.mBatteryState.flashOnMs > 0 ∧ self.mBatteryState.flashOffMs > 0
  · simp [hbr]
  · simp [hbr, and_comm]

/-- Instances: the battery states `0xFFFF0000` and `0xFF607000`, both not
flashing. -/
theorem battery_colour_quantisation_witness :
    speakerColor
      ⟨255, HwLightState.empty, ⟨0xFFFF0000, FlashMode.NONE, 0, 0⟩, HwLightState.empty⟩
      (selectedState
        ⟨255, HwLightState.empty, ⟨0xFFFF0000, FlashMode.NONE, 0, 0⟩, HwLightState.empty⟩)
      = (0xFF, 0) ∧
    speakerColor
      ⟨255, HwLightState.empty, ⟨0xFF607000, FlashMode.NONE, 0, 0⟩, HwLightState.empty⟩
      (selectedState
        ⟨255, HwLightState.empty, ⟨0xFF607000, FlashMode.NONE, 0, 0⟩, HwLightState.empty⟩)
      = (0x08, 0xFF) :=
  ⟨(battery_colour_quantisation _ (by decide) (by decide) (by decide) (by decide)).trans
      (by decide),
   (battery_colour_quantisation _ (by decide) (by decide) (by decide) (by decide)).trans
      (by decide)⟩

/-- C4, counterexample: with notification off and attention and battery both
holding the lit state `0xFFFF0000`, attention wins the resolution but the forced
colour is `(0xFF, 0)`, not `(0, 0)`. -/
theorem attention_off_fails_when_battery_equal :
    isLit HwLightState.empty = false ∧
    isLit (⟨0xFFFF0000, FlashMode.NONE, 0, 0⟩ : HwLightState) = true ∧
    speakerColor
      { mLcdBacklightMax := 255,
        mAttentionState := ⟨0xFFFF0000, FlashMode.NONE, 0, 0⟩,
        mBatteryState := ⟨0xFFFF0000, FlashMode.NONE, 0, 0⟩,
        mNotificationState := HwLightState.empty }
      (selectedState
        { mLcdBacklightMax := 255,
          mAttentionState := ⟨0xFFFF0000, FlashMode.NONE, 0, 0⟩,
          mBatteryState := ⟨0xFFFF0000, FlashMode.NONE, 0, 0⟩,
          mNotificationState := HwLightState.empty }) = (0xFF, 0) ∧
    ((0xFF, 0) : Nat × Nat) ≠ (0, 0) := by
  decide

/-- C4, amended: when the notification state is not lit and the attention state
is lit, the forced colour is `(0, 0)` provided the battery state differs in
value from the attention state or the attention colour's top byte is not
`0xFF`. -/
theorem attention_forces_off (self : Lights)
    (hn : isLit self.mNotificationState = false)
    (ha : isLit self.mAttentionState = true)
    (hne : self.mBatteryState ≠ self.mAttentionState ∨
      self.mAttentionState.color / 16777216 % 256 ≠ 0xFF) :
    speakerColor self (selectedState self) = (0, 0) := by
  rw [selectedState_attention self hn ha, speakerColor_eq]
  have hnot : ¬ (u32 self.mAttentionState.color > 0xFF000000 ∧
      self.mAttentionState = self.mBatteryState) := by
    rintro ⟨hgt, heq⟩
    rcases hne with h | h
    · exact h heq.symm
    · apply h
      have hlt : u32 self.mAttentionState.color < 4294967296 := Nat.mod_lt _ (by decide)
      unfold u32 at hgt hlt
      omega
  have hnot2 : ¬ (u32 self.mAttentionState.color > 0xFF000000 ∧
      self.mAttentionState = self.mNotificationState) := by
    rintro ⟨_, heq⟩
    rw [heq, hn] at ha
    exact Bool.noConfusion ha
  rw [if_neg hnot, if_neg hnot2]

/-- Instance: a lit attention state over a different lit battery state. -/
theorem attention_forces_off_witness :
    speakerColor
      ⟨255, ⟨0xFFFF0000, FlashMode.TIMED, 300, 300⟩, ⟨0xFF00FF00, FlashMode.NONE, 0, 0⟩,
        HwLightState.empty⟩
      (selectedState
        ⟨255, ⟨0xFFFF0000, FlashMode.TIMED, 300, 300⟩, ⟨0xFF00FF00, FlashMode.NONE, 0, 0⟩,
          HwLightState.empty⟩) = (0, 0) :=
  attention_forces_off _ (by decide) (by decide) (Or.inl (by decide))

/-- C5, counterexample: the battery state `0x01FF0000` wins the resolution and
its colour exceeds `0x00FFFFFF`, yet the forced colour is `(0, 0)`. -/
theorem remap_not_applied_for_top_byte_one :
    isLit HwLightState.empty = false ∧
    isLit (⟨0x01FF0000, FlashMode.NONE, 0, 0⟩ : HwLightState) = true ∧
    (0x01FF0000 : Nat) > 0x00FFFFFF ∧
    selectedState
      { mLcdBacklightMax := 255,
        mAttentionState := HwLightState.empty,
        mBatteryState := ⟨0x01FF0000, FlashMode.NONE, 0, 0⟩,
        mNotificationState := HwLightState.empty }
      = ⟨0x01FF0000, FlashMode.NONE, 0, 0⟩ ∧
    speakerColor
      { mLcdBacklightMax := 255,
        mAttentionState := HwLightState.empty,
        mBatteryState := ⟨0x01FF0000, FlashMode.NONE, 0, 0⟩,
        mNotificationState := HwLightState.empty }
      (selectedState
        { mLcdBacklightMax := 255,
          mAttentionState := HwLightState.empty,
          mBatteryState := ⟨0x01FF0000, FlashMode.NONE, 0, 0⟩,
          mNotificationState := HwLightState.empty })
      = (0, 0) := by
  decide

/-- C5, amended: when the winning state is the notification state or the battery
state and the winning colour satisfies `color > 0xFF000000`, the forced
`(red, green)` is red-only, the amber approximation or green-only, and never
`(0, 0)`. -/
theorem remap_applies_above_opaque_black (self : Lights)
    (hwin : isLit self.mNotificationState = true ∨
      (isLit self.mNotificationState = false ∧ isLit self.mAttentionState = false ∧
        isLit self.mBatteryState = true))
    (hcol : u32 (selectedState self).color > 0xFF000000) :
    (speakerColor self (selectedState self) = (0xFF, 0) ∨
      speakerColor self (selectedState self) = (0x08, 0xFF) ∨
      speakerColor self (selectedState self) = (0, 0xFF)) ∧
    speakerColor self (selectedState self) ≠ (0, 0) := by
  have hsel : selectedState self = self.mBatteryState ∨
      selectedState self = self.mNotificationState := by
    rcases hwin with h | ⟨hn, ha, hb⟩
    · exact Or.inr (selectedState_notification self h)
    · exact Or.inl (selectedState_battery self hn ha hb)
  have key : speakerColor self (selectedState self) = (0xFF, 0) ∨
      speakerColor self (selectedState self) = (0x08, 0xFF) ∨
      speakerColor self (selectedState self) = (0, 0xFF) := by
    rw [speakerColor_eq]
    by_cases hb : selectedState self = self.mBatteryState
    · rw [if_pos ⟨hcol, hb⟩]
      split
      · exact Or.inl rfl
      · split
        · exact Or.inr (Or.inl rfl)
        · exact Or.inr (Or.inr rfl)
    · have hnn : selectedState self = self.mNotificationState := by
        rcases hsel with h | h
        · exact absurd h hb
        · exact h
      rw [if_neg (fun h => hb h.2), if_pos ⟨hcol, hnn⟩]
      exact Or.inr (Or.inr rfl)
  refine ⟨key, ?_⟩
  rcases key with h | h | h <;> rw [h] <;> decide

/-- Instance: the battery state `0xFF607000` wins and is remapped. -/
theorem remap_applies_above_opaque_black_witness :
    (speakerColor
        ⟨255, HwLightState.empty, ⟨0xFF607000, FlashMode.NONE, 0, 0⟩, HwLightState.empty⟩
        (selectedState
          ⟨255, HwLightState.empty, ⟨0xFF607000, FlashMode.NONE, 0, 0⟩, HwLightState.empty⟩)
        = (0xFF, 0) ∨
      speakerColor
        ⟨255, HwLightState.empty, ⟨0xFF607000, FlashMode.NONE, 0, 0⟩, HwLightState.empty⟩
        (selectedState
          ⟨255, HwLightState.empty, ⟨0xFF607000, FlashMode.NONE, 0, 0⟩, HwLightState.empty⟩)
        = (0x08, 0xFF) ∨
      speakerColor
        ⟨255, HwLightState.empty, ⟨0xFF607000, FlashMode.NONE, 0, 0⟩, HwLightState.empty⟩
        (selectedState
          ⟨255, HwLightState.empty, ⟨0xFF607000, FlashMode.NONE, 0, 0⟩, HwLightState.empty⟩)
        = (0, 0xFF)) ∧
    speakerColor
      ⟨255, HwLightState.empty, ⟨0xFF607000, FlashMode.NONE, 0, 0⟩, HwLightState.empty⟩
      (selectedState
        ⟨255, HwLightState.empty, ⟨0xFF607000, FlashMode.NONE, 0, 0⟩, HwLightState.empty⟩)
      ≠ (0, 0) :=
  remap_applies_above_opaque_black _ (Or.inr ⟨by decide, by decide, by decide⟩) (by decide)

theorem speakerColor_of_top_zero (self : Lights) (state : HwLightState)
    (h : u32 state.color ≤ 0x00FFFFFF) : speakerColor self state = (0, 0) := by
  have hgt : ¬ u32 state.color > 0xFF000000 := by omega
  rw [speakerColor_eq, if_neg (fun h => hgt h.1), if_neg (fun h => hgt h.1)]

theorem setSpeakerLightLocked_of_off (self : Lights) (state : HwLightState)
    (hc : speakerColor self state = (0, 0)) :
    setSpeakerLightLocked self state =
      if speakerBreath state ≠ 0 then [⟨Sink.mRedBreath, 0⟩, ⟨Sink.mGreenBreath, 0⟩]
      else [⟨Sink.mRedBreath, 0⟩, ⟨Sink.mGreenBreath, 0⟩, ⟨Sink.mRedLed, 0⟩,
        ⟨Sink.mGreenLed, 0⟩] := by
  unfold setSpeakerLightLocked
  rw [hc]
  by_cases hbr : speakerBreath state = 0 <;> simp [hbr]

/-- C6. When the winning state's colour has top byte zero
(`color <= 0x00FFFFFF`), the forced colour is `(0, 0)` and every value the
update writes is 0, whatever role the state came from and whatever its flash
parameters. -/
theorem top_byte_zero_forces_off (self : Lights)
    (h : u32 (selectedState self).color ≤ 0x00FFFFFF) :
    speakerColor self (selectedState self) = (0, 0) ∧
    ∀ w ∈ setSpeakerBatteryLightLocked self, w.value = 0 := by
  have hc := speakerColor_of_top_zero self (selectedState self) h
  refine ⟨hc, ?_⟩
  intro w hw
  rw [setSpeakerBatteryLightLocked, setSpeakerLightLocked_of_off self _ hc] at hw
  split at hw
  · simp at hw
    rcases hw with rfl | rfl <;> rfl
  · simp at hw
    rcases hw with rfl | rfl | rfl | rfl <;> rfl

/-- Instance: a breathing attention state `0x00FF0000` wins over a lit battery
state. -/
theorem top_byte_zero_forces_off_witness :
    speakerColor
      ⟨255, ⟨0x00FF0000, FlashMode.TIMED, 500, 500⟩, ⟨0xFFFF0000, FlashMode.NONE, 0, 0⟩,
        HwLightState.empty⟩
      (selectedState
        ⟨255, ⟨0x00FF0000, FlashMode.TIMED, 500, 500⟩, ⟨0xFFFF0000, FlashMode.NONE, 0, 0⟩,
          HwLightState.empty⟩) = (0, 0) ∧
    ∀ w ∈ setSpeakerBatteryLightLocked
        ⟨255, ⟨0x00FF0000, FlashMode.TIMED, 500, 500⟩, ⟨0xFFFF0000, FlashMode.NONE, 0, 0⟩,
          HwLightState.empty⟩, w.value = 0 :=
  top_byte_zero_forces_off _ (by decide)

/-- C7. All-off: a shared-role update after which none of the three stored
states has a nonzero low-24-bit colour writes exactly red-breath 0, green-breath
0, red-level 0, green-level 0, so the four LED sinks hold 0 afterwards (and the
backlight sink is untouched). -/
theorem all_off_writes_zero (self : Lights) (id : Int) (state : HwLightState) (d : Device)
    (hid : id = LightType.ATTENTION.val ∨ id = LightType.BATTERY.val ∨
      id = LightType.NOTIFICATIONS.val)
    (hn : (setLightState self id state).2.1.mNotificationState.color % 16777216 = 0)
    (ha : (setLightState self id state).2.1.mAttentionState.color % 16777216 = 0)
    (hb : (setLightState self id state).2.1.mBatteryState.color % 16777216 = 0) :
    (setLightState self id state).2.2 =
      [⟨Sink.mRedBreath, 0⟩, ⟨Sink.mGreenBreath, 0⟩, ⟨Sink.mRedLed, 0⟩, ⟨Sink.mGreenLed, 0⟩] ∧
    (d.writeAll (setLightState self id state).2.2).redBreath = 0 ∧
    (d.writeAll (setLightState self id state).2.2).greenBreath = 0 ∧
    (d.writeAll (setLightState self id state).2.2).redLed = 0 ∧
    (d.writeAll (setLightState self id state).2.2).greenLed = 0 ∧
    (d.writeAll (setLightState self id state).2.2).lcdBacklight = d.lcdBacklight := by
  have hw : (setLightState self id state).2.2 =
      setSpeakerBatteryLightLocked (setLightState self id state).2.1 := by
    rcases hid with rfl | rfl | rfl <;> rfl
  have hsel : selectedState (setLightState self id state).2.1 = HwLightState.empty :=
    selectedState_off _ ((isLit_false_iff _).2 hn) ((isLit_false_iff _).2 ha)
      ((isLit_false_iff _).2 hb)
  have hws : (setLightState self id state).2.2 =
      [⟨Sink.mRedBreath, 0⟩, ⟨Sink.mGreenBreath, 0⟩, ⟨Sink.mRedLed, 0⟩,
        ⟨Sink.mGreenLed, 0⟩] := by
    rw [hw, setSpeakerBatteryLightLocked, hsel]
    rw [setSpeakerLightLocked_of_off _ _ (speakerColor_of_top_zero _ _ (by decide))]
    rfl
  rw [hws]
  exact ⟨rfl, rfl, rfl, rfl, rfl, rfl⟩

/-- Instance: the battery role, previously red and breathing, is set to
`0xFF000000` with flash parameters. -/
theorem all_off_writes_zero_witness :
    (setLightState
        ⟨255, HwLightState.empty, ⟨0xFFFF0000, FlashMode.TIMED, 500, 500⟩, HwLightState.empty⟩
        3 ⟨0xFF000000, FlashMode.TIMED, 500, 500⟩).2.2 =
      [⟨Sink.mRedBreath, 0⟩, ⟨Sink.mGreenBreath, 0⟩, ⟨Sink.mRedLed, 0⟩, ⟨Sink.mGreenLed, 0⟩] ∧
    (Device.writeAll ⟨7, 1, 255, 1, 255⟩ (setLightState
        ⟨255, HwLightState.empty, ⟨0xFFFF0000, FlashMode.TIMED, 500, 500⟩, HwLightState.empty⟩
        3 ⟨0xFF000000, FlashMode.TIMED, 500, 500⟩).2.2) = ⟨7, 0, 0, 0, 0⟩ := by
  have h := all_off_writes_zero
    ⟨255, HwLightState.empty, ⟨0xFFFF0000, FlashMode.TIMED, 500, 500⟩, HwLightState.empty⟩
    3 ⟨0xFF000000, FlashMode.TIMED, 500, 500⟩ ⟨7, 1, 255, 1, 255⟩
    (Or.inr (Or.inl rfl)) (by decide) (by decide) (by decide)
  exact ⟨h.1, by decide⟩

theorem find_mLights (k : LightType) :
    find mLights k =
      if k = LightType.ATTENTION then some (LightType.ATTENTION, setAttentionLight)
      else if k = LightType.BACKLIGHT then some (LightType.BACKLIGHT, setLcdBacklight)
      else if k = LightType.BATTERY then some (LightType.BATTERY, setBatteryLight)
      else if k = LightType.BUTTONS then some (LightType.BUTTONS, setButtonsBacklight)
      else if k = LightType.NOTIFICATIONS then
        some (LightType.NOTIFICATIONS, setNotificationLight)
      else none := by
  have hm : mLights =
      [(LightType.ATTENTION, setAttentionLight), (LightType.BACKLIGHT, setLcdBacklight),
       (LightType.BATTERY, setBatteryLight), (LightType.BUTTONS, setButtonsBacklight),
       (LightType.NOTIFICATIONS, setNotificationLight)] := by
    simp [mLights, emplace, LightType.ATTENTION, LightType.BACKLIGHT, LightType.BATTERY,
      LightType.BUTTONS, LightType.NOTIFICATIONS]
  rw [hm]
  simp only [find, List.find?]
  by_cases h1 : k = LightType.ATTENTION
  · simp [h1]
  by_cases h2 : k = LightType.BACKLIGHT
  · simp [h2, LightType.ATTENTION, LightType.BACKLIGHT]
  by_cases h3 : k = LightType.BATTERY
  · simp [h3, LightType.ATTENTION, LightType.BACKLIGHT, LightType.BATTERY]
  by_cases h4 : k = LightType.BUTTONS
  · simp [h4, LightType.ATTENTION, LightType.BACKLIGHT, LightType.BATTERY, LightType.BUTTONS]
  by_cases h5 : k = LightType.NOTIFICATIONS
  · simp [h5, LightType.ATTENTION, LightType.BACKLIGHT, LightType.BATTERY, LightType.BUTTONS,
      LightType.NOTIFICATIONS]
  have e1 : ¬ LightType.ATTENTION = k := fun h => h1 h.symm
  have e2 : ¬ LightType.BACKLIGHT = k := fun h => h2 h.symm
  have e3 : ¬ LightType.BATTERY = k := fun h => h3 h.symm
  have e4 : ¬ LightType.BUTTONS = k := fun h => h4 h.symm
  have e5 : ¬ LightType.NOTIFICATIONS = k := fun h => h5 h.symm
  simp [h1, h2, h3, h4, h5, e1, e2, e3, e4, e5]

/-- The conversion to the underlying type keeps every value in -128..127. -/
theorem toInt8_of_range (id : Int) (hlo : -128 ≤ id) (hhi : id ≤ 127) : toInt8 id = id := by
  unfold toInt8
  omega

/-- `setLightState` fails with `EX_UNSUPPORTED_OPERATION` exactly when `id`,
converted to the underlying type of `LightType`, is none of the five tracked
values; a failing call leaves the object unchanged and writes nothing; each of
the five tracked ids returns success. -/
theorem setLightState_unsupported_iff_converted (self : Lights) (id : Int)
    (state : HwLightState) :
    ((setLightState self id state).1 = Status.EX_UNSUPPORTED_OPERATION ↔
      (toInt8 id ≠ LightType.ATTENTION.val ∧ toInt8 id ≠ LightType.BACKLIGHT.val ∧
       toInt8 id ≠ LightType.BATTERY.val ∧ toInt8 id ≠ LightType.BUTTONS.val ∧
       toInt8 id ≠ LightType.NOTIFICATIONS.val)) ∧
    ((setLightState self id state).1 = Status.ok ∨
      ((setLightState self id state).2.1 = self ∧ (setLightState self id state).2.2 = [])) ∧
    (setLightState self LightType.ATTENTION.val state).1 = Status.ok ∧
    (setLightState self LightType.BACKLIGHT.val state).1 = Status.ok ∧
    (setLightState self LightType.BATTERY.val state).1 = Status.ok ∧
    (setLightState self LightType.BUTTONS.val state).1 = Status.ok ∧
    (setLightState self LightType.NOTIFICATIONS.val state).1 = Status.ok := by
  refine ⟨?_, ?_, rfl, rfl, rfl, rfl, rfl⟩
  · unfold setLightState
    rw [find_mLights]
    have hk : ∀ t : LightType, (LightType.ofId id = t) ↔ toInt8 id = t.val := by
      intro t; cases t; simp [LightType.ofId]
    simp only [hk]
    generalize toInt8 id = k
    by_cases h1 : k = LightType.ATTENTION.val
    · simp [h1]
    by_cases h2 : k = LightType.BACKLIGHT.val
    · simp [h2, LightType.ATTENTION, LightType.BACKLIGHT]
    by_cases h3 : k = LightType.BATTERY.val
    · simp [h3, LightType.ATTENTION, LightType.BACKLIGHT, LightType.BATTERY]
    by_cases h4 : k = LightType.BUTTONS.val
    · simp [h4, LightType.ATTENTION, LightType.BACKLIGHT, LightType.BATTERY, LightType.BUTTONS]
    by_cases h5 : k = LightType.NOTIFICATIONS.val
    · simp [h5, LightType.ATTENTION, LightType.BACKLIGHT, LightType.BATTERY, LightType.BUTTONS,
        LightType.NOTIFICATIONS]
    simp [h1, h2, h3, h4, h5]
  · unfold setLightState
    cases find mLights (LightType.ofId id) with
    | none => exact Or.inr ⟨rfl, rfl⟩
    | some it => exact Or.inl rfl

/-- For every id in -128..127, `setLightState` fails with
`EX_UNSUPPORTED_OPERATION` exactly when the id is none of the five tracked
ids. -/
theorem setLightState_unsupported_iff_in_byte_range (self : Lights) (id : Int)
    (state : HwLightState) (hlo : -128 ≤ id) (hhi : id ≤ 127) :
    (setLightState self id state).1 = Status.EX_UNSUPPORTED_OPERATION ↔
      (id ≠ LightType.ATTENTION.val ∧ id ≠ LightType.BACKLIGHT.val ∧
       id ≠ LightType.BATTERY.val ∧ id ≠ LightType.BUTTONS.val ∧
       id ≠ LightType.NOTIFICATIONS.val) := by
  have h := (setLightState_unsupported_iff_converted self id state).1
  rw [toInt8_of_range id hlo hhi] at h
  exact h

/-- C8, at the failing input: the id 259 is none of the five tracked ids, yet its
conversion to `LightType` is `BATTERY`; on a freshly constructed service
`setLightState` with id 259 and the solid red state `0xFFFF0000` returns
success, stores the state as the battery state and writes the LED sinks. -/
theorem setLightState_accepts_id_259 :
    (259 : Int) ≠ LightType.ATTENTION.val ∧ (259 : Int) ≠ LightType.BACKLIGHT.val ∧
    (259 : Int) ≠ LightType.BATTERY.val ∧ (259 : Int) ≠ LightType.BUTTONS.val ∧
    (259 : Int) ≠ LightType.NOTIFICATIONS.val ∧
    LightType.ofId 259 = LightType.BATTERY ∧
    setLightState
        { mLcdBacklightMax := 255,
          mAttentionState := HwLightState.empty,
          mBatteryState := HwLightState.empty,
          mNotificationState := HwLightState.empty }
        259 ⟨0xFFFF0000, FlashMode.NONE, 0, 0⟩ =
      (Status.ok,
        { mLcdBacklightMax := 255,
          mAttentionState := HwLightState.empty,
          mBatteryState := ⟨0xFFFF0000, FlashMode.NONE, 0, 0⟩,
          mNotificationState := HwLightState.empty },
        [⟨Sink.mRedBreath, 0⟩, ⟨Sink.mGreenBreath, 0⟩, ⟨Sink.mRedLed, 0xFF⟩,
          ⟨Sink.mGreenLed, 0⟩]) := by
  decide

theorem mLights_keys :
    mLights.map (fun e => e.1) =
      [LightType.ATTENTION, LightType.BACKLIGHT, LightType.BATTERY, LightType.BUTTONS,
        LightType.NOTIFICATIONS] := by
  simp [mLights, emplace, LightType.ATTENTION, LightType.BACKLIGHT, LightType.BATTERY,
    LightType.BUTTONS, LightType.NOTIFICATIONS]

theorem foldl_push_back (m : List (LightType × Handler)) (ret : List HwLight) :
    m.foldl (fun ret light => ret ++ [AutoHwLight light.1]) ret =
      ret ++ (m.map (fun e => e.1)).map AutoHwLight := by
  induction m generalizing ret with
  | nil => simp
  | cons e m ih => simp [List.foldl_cons, ih, List.append_assoc]

/-- C9. `getLights` on an empty result list, for any order in which the loop
visits the role table, returns success, leaves the object unchanged and yields
exactly five entries: one per role among attention, backlight, battery, buttons
and notifications, with id the role's numeric value and ordinal 0. -/
theorem getLights_lists_five_roles (iteration : List (LightType × Handler)) (self : Lights)
    (horder : iteration.Perm mLights) :
    (getLightsIn iteration self []).1 = Status.ok ∧
    (getLightsIn iteration self []).2.1 = self ∧
    (getLightsIn iteration self []).2.2.length = 5 ∧
    (getLightsIn iteration self []).2.2.Perm
      [⟨LightType.ATTENTION.val, LightType.ATTENTION, 0⟩,
       ⟨LightType.BACKLIGHT.val, LightType.BACKLIGHT, 0⟩,
       ⟨LightType.BATTERY.val, LightType.BATTERY, 0⟩,
       ⟨LightType.BUTTONS.val, LightType.BUTTONS, 0⟩,
       ⟨LightType.NOTIFICATIONS.val, LightType.NOTIFICATIONS, 0⟩] := by
  have hp : (getLightsIn iteration self []).2.2.Perm
      [⟨LightType.ATTENTION.val, LightType.ATTENTION, 0⟩,
       ⟨LightType.BACKLIGHT.val, LightType.BACKLIGHT, 0⟩,
       ⟨LightType.BATTERY.val, LightType.BATTERY, 0⟩,
       ⟨LightType.BUTTONS.val, LightType.BUTTONS, 0⟩,
       ⟨LightType.NOTIFICATIONS.val, LightType.NOTIFICATIONS, 0⟩] := by
    show (iteration.foldl (fun ret light => ret ++ [AutoHwLight light.1]) []).Perm _
    rw [foldl_push_back, List.nil_append]
    have h1 := (horder.map (fun e => e.1)).map AutoHwLight
    rw [mLights_keys] at h1
    exact h1
  exact ⟨rfl, rfl, hp.length_eq, hp⟩

/-- Instance: the reversed visiting order, together with the list produced in
insertion order. -/
theorem getLights_lists_five_roles_witness :
    (getLightsIn mLights.reverse ⟨255, HwLightState.empty, HwLightState.empty,
        HwLightState.empty⟩ []).2.2.Perm
      [⟨5, LightType.ATTENTION, 0⟩, ⟨0, LightType.BACKLIGHT, 0⟩, ⟨3, LightType.BATTERY, 0⟩,
       ⟨2, LightType.BUTTONS, 0⟩, ⟨4, LightType.NOTIFICATIONS, 0⟩] ∧
    (getLights ⟨255, HwLightState.empty, HwLightState.empty, HwLightState.empty⟩ []).2.2 =
      [⟨5, LightType.ATTENTION, 0⟩, ⟨0, LightType.BACKLIGHT, 0⟩, ⟨3, LightType.BATTERY, 0⟩,
       ⟨2, LightType.BUTTONS, 0⟩, ⟨4, LightType.NOTIFICATIONS, 0⟩] :=
  ⟨(getLights_lists_five_roles mLights.reverse _ (List.reverse_perm mLights)).2.2.2,
   by decide⟩

/-- C10. `rgbToBrightness` is `(77*R + 150*G + 29*B) >> 8` over the three low
bytes of the colour, is unchanged by any replacement of the bits above the low
24, is at most 255, and is 255, 0 and 76 at `0x00FFFFFF`, `0x00000000` and
`0x00FF0000`. -/
theorem rgbToBrightness_luminance (state : HwLightState) (top : Nat) :
    rgbToBrightness state =
      (77 * (state.color / 65536 % 256) + 150 * (state.color / 256 % 256) +
        29 * (state.color % 256)) >>> 8 ∧
    rgbToBrightness { state with color := state.color % 16777216 + top * 16777216 } =
      rgbToBrightness state ∧
    rgbToBrightness state ≤ 255 ∧
    rgbToBrightness { state with color := 0x00FFFFFF } = 255 ∧
    rgbToBrightness { state with color := 0x00000000 } = 0 ∧
    rgbToBrightness { state with color := 0x00FF0000 } = 76 := by
  have key : ∀ s : HwLightState, rgbToBrightness s =
      (77 * (s.color / 65536 % 256) + 150 * (s.color / 256 % 256) + 29 * (s.color % 256))
        / 256 := by
    intro s
    have hR : s.color % 16777216 % 4294967296 / 65536 % 256 = s.color / 65536 % 256 := by
      omega
    have hG : s.color % 16777216 % 4294967296 / 256 % 256 = s.color / 256 % 256 := by
      omega
    have hB : s.color % 16777216 % 4294967296 % 256 = s.color % 256 := by
      omega
    have bR : s.color / 65536 % 256 < 256 := Nat.mod_lt _ (by decide)
    have bG : s.color / 256 % 256 < 256 := Nat.mod_lt _ (by decide)
    have bB : s.color % 256 < 256 := Nat.mod_lt _ (by decide)
    simp only [rgbToBrightness, u32, land_low24, land_low8, Nat.shiftRight_eq_div_pow,
      Nat.reducePow, hR, hG, hB]
    generalize s.color / 65536 % 256 = r at bR
    generalize s.color / 256 % 256 = g at bG
    generalize s.color % 256 = b at bB
    omega
  refine ⟨?_, ?_, ?_, ?_, ?_, ?_⟩
  · rw [key, Nat.shiftRight_eq_div_pow]
  · rw [key, key]
    simp only
    omega
  · rw [key]; omega
  · rw [key]; simp only
  · rw [key]; simp only
  · rw [key]; simp only

theorem rgbToBrightness_eq_div (s : HwLightState) :
    rgbToBrightness s =
      (77 * (s.color / 65536 % 256) + 150 * (s.color / 256 % 256) + 29 * (s.color % 256))
        / 256 := by
  have hR : s.color % 16777216 % 4294967296 / 65536 % 256 = s.color / 65536 % 256 := by
    omega
  have hG : s.color % 16777216 % 4294967296 / 256 % 256 = s.color / 256 % 256 := by
    omega
  have hB : s.color % 16777216 % 4294967296 % 256 = s.color % 256 := by
    omega
  have bR : s.color / 65536 % 256 < 256 := Nat.mod_lt _ (by decide)
  have bG : s.color / 256 % 256 < 256 := Nat.mod_lt _ (by decide)
  have bB : s.color % 256 < 256 := Nat.mod_lt _ (by decide)
  simp only [rgbToBrightness, u32, land_low24, land_low8, Nat.shiftRight_eq_div_pow,
    Nat.reducePow, hR, hG, hB]
  generalize s.color / 65536 % 256 = r at bR
  generalize s.color / 256 % 256 = g at bG
  generalize s.color % 256 = b at bB
  omega

theorem rgbToBrightness_le (state : HwLightState) : rgbToBrightness state ≤ 255 := by
  rw [rgbToBrightness_eq_div]
  omega

theorem setLightState_backlight (self : Lights) (state : HwLightState) :
    setLightState self LightType.BACKLIGHT.val state =
      (Status.ok, self,
        [⟨Sink.mLcdBacklight,
          if u32 self.mLcdBacklightMax ≠ 255 then
            u32 (rgbToBrightness state * u32 self.mLcdBacklightMax) / 255
          else rgbToBrightness state⟩]) := rfl

/-- Backlight scaling in the range where the 32-bit product cannot wrap: for a
device maximum of at most 16843009 the written value is the luminance when the
maximum is 255 and `floor (luminance * maximum / 255)` otherwise. -/
theorem backlight_scaling_without_wrap (self : Lights) (state : HwLightState)
    (hmax : self.mLcdBacklightMax ≤ 16843009) :
    (setLightState self LightType.BACKLIGHT.val state).2.2 =
      [⟨Sink.mLcdBacklight,
        if self.mLcdBacklightMax = 255 then rgbToBrightness state
        else rgbToBrightness state * self.mLcdBacklightMax / 255⟩] := by
  rw [setLightState_backlight]
  have hm : u32 self.mLcdBacklightMax = self.mLcdBacklightMax := by
    unfold u32; omega
  have hL := rgbToBrightness_le state
  have hprod : rgbToBrightness state * self.mLcdBacklightMax ≤ 255 * 16843009 :=
    Nat.mul_le_mul hL hmax
  have hp : u32 (rgbToBrightness state * self.mLcdBacklightMax) =
      rgbToBrightness state * self.mLcdBacklightMax := by
    unfold u32; omega
  rw [hm, hp]
  by_cases h : self.mLcdBacklightMax = 255 <;> simp [h]

/-- C11, at the failing input: with device maximum 16843010 and colour
`0x00FFFFFF` (luminance 255) the product wraps modulo `2^32` and the value
written to the backlight sink is 0, while `floor (255 * 16843010 / 255)` is
16843010. -/
theorem backlight_scaling_wraps_at_16843010 :
    (setLightState
      { mLcdBacklightMax := 16843010,
        mAttentionState := HwLightState.empty,
        mBatteryState := HwLightState.empty,
        mNotificationState := HwLightState.empty }
      LightType.BACKLIGHT.val ⟨0x00FFFFFF, FlashMode.NONE, 0, 0⟩).2.2 =
      [⟨Sink.mLcdBacklight, 0⟩] ∧
    rgbToBrightness ⟨0x00FFFFFF, FlashMode.NONE, 0, 0⟩ = 255 ∧
    (16843010 : Nat) < 4294967296 ∧
    255 * 16843010 / 255 = 16843010 := by
  decide

/-- C12. Backlight range: for every colour and every 32-bit device maximum, the
backlight update writes exactly one value to the backlight sink and that value
is at most the device maximum, the product being taken modulo `2^32`. -/
theorem backlight_value_in_range (self : Lights) (state : HwLightState)
    (hmax : self.mLcdBacklightMax < 4294967296) :
    ∃ v, (setLightState self LightType.BACKLIGHT.val state).2.2 = [⟨Sink.mLcdBacklight, v⟩] ∧
      v ≤ self.mLcdBacklightMax := by
  rw [setLightState_backlight]
  refine ⟨_, rfl, ?_⟩
  have hm : u32 self.mLcdBacklightMax = self.mLcdBacklightMax := by
    unfold u32; omega
  have hL := rgbToBrightness_le state
  rw [hm]
  split
  · have h1 : u32 (rgbToBrightness state * self.mLcdBacklightMax) ≤
        255 * self.mLcdBacklightMax :=
      Nat.le_trans (Nat.mod_le _ _) (Nat.mul_le_mul_right _ hL)
    calc u32 (rgbToBrightness state * self.mLcdBacklightMax) / 255
        ≤ 255 * self.mLcdBacklightMax / 255 := Nat.div_le_div_right h1
      _ = self.mLcdBacklightMax := Nat.mul_div_cancel_left _ (by decide)
  · rename_i h
    have h255 : self.mLcdBacklightMax = 255 := by
      by_contra hne
      exact h hne
    omega

/-- Instance: device maximum 4095 and colour `0x00FFFFFF`. -/
theorem backlight_value_in_range_witness :
    ∃ v, (setLightState
        { mLcdBacklightMax := 4095,
          mAttentionState := HwLightState.empty,
          mBatteryState := HwLightState.empty,
          mNotificationState := HwLightState.empty }
        LightType.BACKLIGHT.val ⟨0x00FFFFFF, FlashMode.NONE, 0, 0⟩).2.2 =
        [⟨Sink.mLcdBacklight, v⟩] ∧ v ≤ 4095 :=
  backlight_value_in_range _ _ (by decide)

/-- C13. Buttons is a no-op: `setLightState` on the buttons role returns success,
issues no write, so every sink keeps its content, and leaves the object with its
three stored states unchanged. -/
theorem buttons_is_noop (self : Lights) (state : HwLightState) :
    (setLightState self LightType.BUTTONS.val state).1 = Status.ok ∧
    (setLightState self LightType.BUTTONS.val state).2.2 = [] ∧
    (setLightState self LightType.BUTTONS.val state).2.1 = self ∧
    (setLightState self LightType.BUTTONS.val state).2.1.mAttentionState =
      self.mAttentionState ∧
    (setLightState self LightType.BUTTONS.val state).2.1.mBatteryState =
      self.mBatteryState ∧
    (setLightState self LightType.BUTTONS.val state).2.1.mNotificationState =
      self.mNotificationState ∧
    ∀ d : Device, d.writeAll (setLightState self LightType.BUTTONS.val state).2.2 = d :=
  ⟨rfl, rfl, rfl, rfl, rfl, rfl, fun _ => rfl⟩


theorem speakerBreath_ne_zero_iff (state : HwLightState) :
    speakerBreath state ≠ 0 ↔
      (state.flashMode = FlashMode.TIMED ∧ state.flashOnMs > 0 ∧ state.flashOffMs > 0) := by
  rw [speakerBreath_eq]
  split <;> simp_all

theorem speakerBreath_of_timed (state : HwLightState)
    (h : state.flashMode = FlashMode.TIMED ∧ state.flashOnMs > 0 ∧ state.flashOffMs > 0) :
    speakerBreath state = 1 := by
  rw [speakerBreath_eq, if_pos h]

/-- C15. Write program of `setSpeakerLightLocked`: `breath` is 1 exactly when the
mode is `TIMED` with both durations positive and 0 otherwise; the writes begin
with red-breath 0 and green-breath 0; when `breath` is 1 they continue with a 1
to green-breath iff the forced green is nonzero and a 1 to red-breath iff the
forced red is nonzero, and nothing else; when `breath` is 0 they continue with
exactly red-level := red and green-level := green. -/
theorem write_program (self : Lights) (state : HwLightState) :
    (speakerBreath state =
      if state.flashMode = FlashMode.TIMED ∧ state.flashOnMs > 0 ∧ state.flashOffMs > 0
      then 1 else 0) ∧
    setSpeakerLightLocked self state =
      [⟨Sink.mRedBreath, 0⟩, ⟨Sink.mGreenBreath, 0⟩] ++
        (if state.flashMode = FlashMode.TIMED ∧ state.flashOnMs > 0 ∧ state.flashOffMs > 0 then
          (if (speakerColor self state).2 ≠ 0 then [⟨Sink.mGreenBreath, 1⟩] else []) ++
          (if (speakerColor self state).1 ≠ 0 then [⟨Sink.mRedBreath, 1⟩] else [])
        else
          [⟨Sink.mRedLed, (speakerColor self state).1⟩,
           ⟨Sink.mGreenLed, (speakerColor self state).2⟩]) := by
  refine ⟨speakerBreath_eq state, ?_⟩
  unfold setSpeakerLightLocked
  by_cases h : state.flashMode = FlashMode.TIMED ∧ state.flashOnMs > 0 ∧ state.flashOffMs > 0
  · have hb : speakerBreath state = 1 := speakerBreath_of_timed state h
    simp only [hb, if_pos h]
    simp
  · have hb : speakerBreath state = 0 := by
      rw [speakerBreath_eq, if_neg h]
    simp only [hb, if_neg h]
    simp


theorem setSpeakerLightLocked_cases (self : Lights) (state : HwLightState) :
    setSpeakerLightLocked self state =
      if speakerBreath state ≠ 0 then
        [⟨Sink.mRedBreath, 0⟩, ⟨Sink.mGreenBreath, 0⟩] ++
          ((if (speakerColor self state).2 ≠ 0 then [⟨Sink.mGreenBreath, 1⟩] else []) ++
           (if (speakerColor self state).1 ≠ 0 then [⟨Sink.mRedBreath, 1⟩] else []))
      else
        [⟨Sink.mRedBreath, 0⟩, ⟨Sink.mGreenBreath, 0⟩, ⟨Sink.mRedLed, (speakerColor self state).1⟩,
          ⟨Sink.mGreenLed, (speakerColor self state).2⟩] := by
  unfold setSpeakerLightLocked
  by_cases h : speakerBreath state = 0
  · simp [h]
  · have h1 : speakerBreath state = 1 :=
      speakerBreath_of_timed state ((speakerBreath_ne_zero_iff state).1 h)
    simp [h1]

theorem setSpeakerLightLocked_no_backlight (self : Lights) (state : HwLightState) :
    ∀ w ∈ setSpeakerLightLocked self state, w.sink ≠ Sink.mLcdBacklight := by
  intro w hw
  rw [setSpeakerLightLocked_cases] at hw
  split at hw
  · simp only [List.mem_append, List.mem_cons, List.mem_singleton] at hw
    rcases hw with (rfl | rfl | h) | h | h
    · decide
    · decide
    · simp at h
    · split at h
      · simp at h; subst h; decide
      · simp at h
    · split at h
      · simp at h; subst h; decide
      · simp at h
  · simp only [List.mem_cons, List.mem_singleton] at hw
    rcases hw with rfl | rfl | rfl | rfl | h
    · decide
    · decide
    · exact fun h => Sink.noConfusion h
    · exact fun h => Sink.noConfusion h
    · simp at h

/-- C16, at the failing input: from the initial object, setting the battery role to
the green breathing state `0xFF00FF00` (`TIMED`, 1000/1000) makes the battery
state the winning state, with the notification state unlit, and the update
writes 1 to the green-breath sink. -/
theorem battery_green_breath_at_failing_input :
    setLightState (Lights.construct 255) LightType.BATTERY.val
        ⟨0xFF00FF00, FlashMode.TIMED, 1000, 1000⟩ =
      (Status.ok,
        { mLcdBacklightMax := 255,
          mAttentionState := HwLightState.empty,
          mBatteryState := ⟨0xFF00FF00, FlashMode.TIMED, 1000, 1000⟩,
          mNotificationState := HwLightState.empty },
        [⟨Sink.mRedBreath, 0⟩, ⟨Sink.mGreenBreath, 0⟩, ⟨Sink.mGreenBreath, 1⟩]) ∧
    isLit HwLightState.empty = false ∧
    selectedState
        { mLcdBacklightMax := 255,
          mAttentionState := HwLightState.empty,
          mBatteryState := ⟨0xFF00FF00, FlashMode.TIMED, 1000, 1000⟩,
          mNotificationState := HwLightState.empty } =
      ⟨0xFF00FF00, FlashMode.TIMED, 1000, 1000⟩ := by
  decide

/-- C17, counterexample: from the same initial sink contents, setting the battery
to solid red and then to breathing red reaches the same stored triple as setting
it to breathing red directly, yet the red-level sink ends at 255 in the first
run and at 0 in the second. -/
theorem level_sinks_depend_on_history :
    (setLightState
        (setLightState (Lights.construct 255) LightType.BATTERY.val
          ⟨0xFFFF0000, FlashMode.NONE, 0, 0⟩).2.1
        LightType.BATTERY.val ⟨0xFFFF0000, FlashMode.TIMED, 500, 500⟩).2.1 =
      (setLightState (Lights.construct 255) LightType.BATTERY.val
        ⟨0xFFFF0000, FlashMode.TIMED, 500, 500⟩).2.1 ∧
    Device.writeAll
        (Device.writeAll ⟨0, 0, 0, 0, 0⟩
          (setLightState (Lights.construct 255) LightType.BATTERY.val
            ⟨0xFFFF0000, FlashMode.NONE, 0, 0⟩).2.2)
        (setLightState
          (setLightState (Lights.construct 255) LightType.BATTERY.val
            ⟨0xFFFF0000, FlashMode.NONE, 0, 0⟩).2.1
          LightType.BATTERY.val ⟨0xFFFF0000, FlashMode.TIMED, 500, 500⟩).2.2 =
      { lcdBacklight := 0, redBreath := 1, redLed := 255, greenBreath := 0, greenLed := 0 } ∧
    Device.writeAll ⟨0, 0, 0, 0, 0⟩
        (setLightState (Lights.construct 255) LightType.BATTERY.val
          ⟨0xFFFF0000, FlashMode.TIMED, 500, 500⟩).2.2 =
      { lcdBacklight := 0, redBreath := 1, redLed := 0, greenBreath := 0, greenLed := 0 } := by
  decide

/-- C17, amended: every shared-role update issues the writes of
`setSpeakerBatteryLightLocked` on the updated object, which depend on the three
stored states only; afterwards the red-breath and green-breath sinks hold values
determined by the stored states alone, and so do the two level sinks when the
winning state does not breathe; when it breathes, the level sinks keep their
prior contents. -/
theorem led_sinks_after_update (self : Lights) (state : HwLightState) (d : Device)
    (m : Nat) :
    (setLightState self LightType.ATTENTION.val state).2.2 =
      setSpeakerBatteryLightLocked (setLightState self LightType.ATTENTION.val state).2.1 ∧
    (setLightState self LightType.BATTERY.val state).2.2 =
      setSpeakerBatteryLightLocked (setLightState self LightType.BATTERY.val state).2.1 ∧
    (setLightState self LightType.NOTIFICATIONS.val state).2.2 =
      setSpeakerBatteryLightLocked (setLightState self LightType.NOTIFICATIONS.val state).2.1 ∧
    setSpeakerBatteryLightLocked { self with mLcdBacklightMax := m } =
      setSpeakerBatteryLightLocked self ∧
    (d.writeAll (setSpeakerBatteryLightLocked self)).redBreath =
      (if speakerBreath (selectedState self) ≠ 0 ∧
          (speakerColor self (selectedState self)).1 ≠ 0 then 1 else 0) ∧
    (d.writeAll (setSpeakerBatteryLightLocked self)).greenBreath =
      (if speakerBreath (selectedState self) ≠ 0 ∧
          (speakerColor self (selectedState self)).2 ≠ 0 then 1 else 0) ∧
    (d.writeAll (setSpeakerBatteryLightLocked self)).redLed =
      (if speakerBreath (selectedState self) ≠ 0 then d.redLed
        else (speakerColor self (selectedState self)).1) ∧
    (d.writeAll (setSpeakerBatteryLightLocked self)).greenLed =
      (if speakerBreath (selectedState self) ≠ 0 then d.greenLed
        else (speakerColor self (selectedState self)).2) := by
  refine ⟨rfl, rfl, rfl, rfl, ?_⟩
  unfold setSpeakerBatteryLightLocked
  rw [setSpeakerLightLocked_cases]
  by_cases hb : speakerBreath (selectedState self) = 0
  · simp [hb, Device.writeAll, Device.write]
  · by_cases hg : (speakerColor self (selectedState self)).2 = 0 <;>
    by_cases hr : (speakerColor self (selectedState self)).1 = 0 <;>
    simp [hb, hg, hr, Device.writeAll, Device.write]


/-- C18. State frame: an update of the attention, battery or notification role
stores the state in that role's field, changes nothing else in the object and
writes nothing to the backlight sink; an update of the backlight role leaves the
object unchanged and issues exactly one write, to the backlight sink. -/
theorem state_frame (self : Lights) (s : HwLightState) :
    ((setLightState self LightType.ATTENTION.val s).2.1 = { self with mAttentionState := s } ∧
      ∀ w ∈ (setLightState self LightType.ATTENTION.val s).2.2, w.sink ≠ Sink.mLcdBacklight) ∧
    ((setLightState self LightType.BATTERY.val s).2.1 = { self with mBatteryState := s } ∧
      ∀ w ∈ (setLightState self LightType.BATTERY.val s).2.2, w.sink ≠ Sink.mLcdBacklight) ∧
    ((setLightState self LightType.NOTIFICATIONS.val s).2.1 =
        { self with mNotificationState := s } ∧
      ∀ w ∈ (setLightState self LightType.NOTIFICATIONS.val s).2.2,
        w.sink ≠ Sink.mLcdBacklight) ∧
    ((setLightState self LightType.BACKLIGHT.val s).2.1 = self ∧
      ∃ v, (setLightState self LightType.BACKLIGHT.val s).2.2 = [⟨Sink.mLcdBacklight, v⟩]) := by
  refine ⟨⟨rfl, ?_⟩, ⟨rfl, ?_⟩, ⟨rfl, ?_⟩, ⟨rfl, ?_⟩⟩
  · exact setSpeakerLightLocked_no_backlight _ _
  · exact setSpeakerLightLocked_no_backlight _ _
  · exact setSpeakerLightLocked_no_backlight _ _
  · rw [setLightState_backlight]
    exact ⟨_, rfl⟩

/-- C19, counterexample: when the maximum-brightness file cannot be opened
(`errno` 2) while the five output files open, `main` returns `-2` before
constructing the service. -/
theorem startup_aborts_when_max_file_missing :
    main
      { lcdBacklight := OpenResult.opened,
        lcdMaxBacklight := OpenResult.failed 2,
        lcdMaxExtracted := none,
        redBreath := OpenResult.opened,
        redLed := OpenResult.opened,
        greenBreath := OpenResult.opened,
        greenLed := OpenResult.opened } = Except.error (-2) := by
  rfl

/-- C19, amended: with the five output files open, `main` returns `-errno` without
constructing the service when the maximum-brightness file cannot be opened; when
that file opens and the extraction stores no value, the service is constructed
with device maximum 255, and with that maximum the backlight luminance is
written unscaled. -/
theorem startup_max_brightness (env : Startup)
    (h1 : env.lcdBacklight = OpenResult.opened)
    (h2 : env.redBreath = OpenResult.opened)
    (h3 : env.redLed = OpenResult.opened)
    (h4 : env.greenBreath = OpenResult.opened)
    (h5 : env.greenLed = OpenResult.opened) :
    (∀ errno, env.lcdMaxBacklight = OpenResult.failed errno →
      main env = Except.error (-errno)) ∧
    (env.lcdMaxBacklight = OpenResult.opened → env.lcdMaxExtracted = none →
      main env = Except.ok (Lights.construct 255)) ∧
    (∀ state, (setLightState (Lights.construct 255) LightType.BACKLIGHT.val state).2.2 =
      [⟨Sink.mLcdBacklight, rgbToBrightness state⟩]) := by
  refine ⟨?_, ?_, ?_⟩
  · intro errno hm
    simp only [main, h1, hm]
  · intro hm he
    simp only [main, h1, h2, h3, h4, h5, hm, he]
  · intro state
    rfl

/-- Instances: all six files open and nothing extracted; the maximum-brightness
file fails to open with `errno` 13. -/
theorem startup_max_brightness_witness :
    main
      { lcdBacklight := OpenResult.opened,
        lcdMaxBacklight := OpenResult.opened,
        lcdMaxExtracted := none,
        redBreath := OpenResult.opened,
        redLed := OpenResult.opened,
        greenBreath := OpenResult.opened,
        greenLed := OpenResult.opened } = Except.ok (Lights.construct 255) ∧
    main
      { lcdBacklight := OpenResult.opened,
        lcdMaxBacklight := OpenResult.failed 13,
        lcdMaxExtracted := none,
        redBreath := OpenResult.opened,
        redLed := OpenResult.opened,
        greenBreath := OpenResult.opened,
        greenLed := OpenResult.opened } = Except.error (-13) :=
  ⟨(startup_max_brightness _ rfl rfl rfl rfl rfl).2.1 rfl rfl,
   (startup_max_brightness _ rfl rfl rfl rfl rfl).1 13 rfl⟩

end Light
